import Mathlib

set_option maxRecDepth 8192
set_option maxHeartbeats 2000000

/-!
Verification development for the esp-link UPnP module (src/esp-link/upnp.c).

Modelling conventions:
- C strings are modelled as `List Char`; the NUL terminator corresponds to the
  end of the list.
- C integers are modelled as `Nat` (or `Int` where the C variable is signed),
  with explicit reduction modulo 2 ^ 16 where the C code truncates to
  `uint16_t`.
- The command replies carried by `cmdResponseStart(CMD_RESP_V, v, 0)` are
  modelled as `Option Int`: `none` means the handler returned without sending
  any response, `some v` is the 32-bit value sent (the failure value
  `(uint32_t)-1` is written `-1`).
-/

/-- ASCII lower-casing of one character, as done by `strncasecmp`. -/
def lowerC (c : Char) : Char :=
  if 'A' ≤ c ∧ c ≤ 'Z' then Char.ofNat (c.toNat + 32) else c

/-- Model of `strncmp(s, pat, pat.length) == 0`: the pattern matches the data
at its head, case-sensitively.  Running past the end of the data counts as a
mismatch (the C buffer would hold a terminator or unrelated bytes there). -/
def nmatch : List Char → List Char → Bool
  | [], _ => true
  | _ :: _, [] => false
  | p :: ps, c :: cs => p == c && nmatch ps cs

/-- Model of `strncasecmp(s, pat, pat.length) == 0`: case-insensitive match of
the pattern at the head of the data. -/
def ncasematch : List Char → List Char → Bool
  | [], _ => true
  | _ :: _, [] => false
  | p :: ps, c :: cs => lowerC p == lowerC c && ncasematch ps cs

/-- The pattern occurs (case-insensitively) at some position of the data, as
found by a C loop running `strncasecmp` at every index. -/
def containsCI (pat : List Char) : List Char → Bool
  | [] => false
  | c :: cs => ncasematch pat (c :: cs) || containsCI pat cs

/-- The pattern occurs (case-sensitively) at some position of the data. -/
def containsSub (pat : List Char) : List Char → Bool
  | [] => false
  | c :: cs => nmatch pat (c :: cs) || containsSub pat cs

/-- Characters treated as whitespace by `atoi`. -/
def isSpaceC (c : Char) : Bool :=
  c == ' ' || c == '\t' || c == '\n' || c == '\r'

/-- ASCII decimal digit test. -/
def isDigitC (c : Char) : Bool :=
  48 ≤ c.toNat && c.toNat ≤ 57

/-- Value of a digit string (most significant first). -/
def valDigits (s : List Char) : Nat :=
  s.foldl (fun a c => 10 * a + (c.toNat - 48)) 0

/-- Model of the C library `atoi`: skip leading whitespace, read an optional
sign, then the maximal run of decimal digits. -/
def atoiInt (s : List Char) : Int :=
  match s.dropWhile (fun c => isSpaceC c) with
  | [] => 0
  | c :: cs =>
    if c = '-' then
      - Int.ofNat (valDigits (List.takeWhile (fun x => isDigitC x) cs))
    else if c = '+' then
      Int.ofNat (valDigits (List.takeWhile (fun x => isDigitC x) cs))
    else
      Int.ofNat (valDigits (List.takeWhile (fun x => isDigitC x) (c :: cs)))

/-- Conversion of a C `int` to `uint16_t` (assignment truncation). -/
def u16 (z : Int) : Nat := (z % 65536).toNat

/-- Decimal rendering of a number, as produced by `os_sprintf` with a `%d`
conversion (all values substituted in this module are small and positive). -/
def natDec (n : Nat) : List Char := (toString n).toList

/-- Split a character list at the first occurrence of `ch`: the first
component is everything before it, the second is the suffix starting at `ch`
(empty when `ch` does not occur).  This models a C index loop
`for (; s[i] && s[i] != ch; i++)`. -/
def breakAtChar (ch : Char) : List Char → (List Char × List Char)
  | [] => ([], [])
  | c :: cs =>
    if c = ch then ([], c :: cs)
    else
      match breakAtChar ch cs with
      | (as, bs) => (c :: as, bs)

/-- Little-endian packing of four IPv4 octets into a 32-bit value, the first
octet in the lowest byte (as `ip_addr_t` stores it on the esp8266). -/
def ipv4 (a b c d : Nat) : Nat := a + 256 * b + 65536 * c + 16777216 * d

/-- Split on every dot, keeping empty groups. -/
def splitDots : List Char → List (List Char)
  | [] => [[]]
  | c :: cs =>
    if c = '.' then [] :: splitDots cs
    else
      match splitDots cs with
      | [] => [[c]]
      | g :: gs => (c :: g) :: gs

/-- Value of one dotted-decimal group: nonempty, all digits, at most 255. -/
def octVal (g : List Char) : Option Nat :=
  if g = [] then none
  else if g.all (fun c => isDigitC c) then
    if valDigits g ≤ 255 then some (valDigits g) else none
  else none

/-- Modelled from the spec: `UTILS_StrToIP` is defined outside this repository
(esp-link utility code); per the spec it parses a dotted-decimal IPv4 address
`a.b.c.d` and fails on any other text.  Success returns the packed 32-bit
address, failure returns `none` (the C function returns false and leaves the
output untouched). -/
def strToIP (s : List Char) : Option Nat :=
  match splitDots s with
  | [g1, g2, g3, g4] =>
    match octVal g1, octVal g2, octVal g3, octVal g4 with
    | some a, some b, some c, some d => some (ipv4 a b c d)
    | _, _, _, _ => none
  | _ => none

/-- The protocol states of `enum upnp_state_t`. -/
inductive UpnpState where
  | upnp_none
  | upnp_multicasted
  | upnp_found_igd
  | upnp_ready
  | upnp_adding_port
  | upnp_removing_port
  | upnp_query_extaddress
deriving DecidableEq

open UpnpState

/-- The session record `UPnPClient` (string pointers become `List Char`, a
NULL `control_url` becomes `none`, addresses and ports become `Nat`). -/
structure UPnPClient where
  host : List Char
  path : List Char
  location : List Char
  control_url : Option (List Char)
  control_port : Nat
  external_address : Nat
  port : Nat
  remote_port : Nat
  ip : Nat
  remote_ip : Nat
deriving DecidableEq

/-- A freshly `os_zalloc`-ed client: every field zero. -/
def zeroClient : UPnPClient :=
  { host := [], path := [], location := [], control_url := none
  , control_port := 0, external_address := 0, port := 0, remote_port := 0
  , ip := 0, remote_ip := 0 }

/-- Fields produced by `upnp_analyze_location`. -/
structure LocResult where
  location : List Char
  control_port : Nat
  path : List Char
  host : List Char
deriving DecidableEq

/-- Model of `upnp_analyze_location` (upnp.c lines 898-938).  The C code
copies the location, scans from index 7 for the first `:` (the port follows
it via `atoi`, default 80), continues from there for the first `/` (the path
starts there), and the host is the text between index 7 and the slash, or the
whole remainder when no slash was found. -/
def upnp_analyze_location (loc : List Char) : LocResult :=
  { location := loc
  , control_port :=
      if (breakAtChar ':' (List.drop 7 loc)).2 = [] then 80
      else u16 (atoiInt (List.drop 1 (breakAtChar ':' (List.drop 7 loc)).2))
  , path :=
      if (breakAtChar '/' (breakAtChar ':' (List.drop 7 loc)).2).2 = [] then []
      else (breakAtChar '/' (breakAtChar ':' (List.drop 7 loc)).2).2
  , host :=
      if (breakAtChar '/' (breakAtChar ':' (List.drop 7 loc)).2).2 = [] then
        List.drop 7 loc
      else
        (breakAtChar ':' (List.drop 7 loc)).1
          ++ (breakAtChar '/' (breakAtChar ':' (List.drop 7 loc)).2).1 }

/-- The `LOCATION:` header name searched for by `ssdp_recv_cb` (the C code
uses a case-sensitive `os_strncmp`). -/
def locPat : List Char := ("LOCATION:").toList

/-- Model of the LOCATION search in `ssdp_recv_cb` (upnp.c lines 321-328).
The C loop runs `i` from 0 while `i < length - 20` and looks for `0x0D 0x0A`
followed by the 9 characters `LOCATION:`.  On a hit, the extracted location
value starts at index `i + 11` (the character right after the colon) and runs
to the next carriage return or the end of the data. -/
def findLocation : List Char → Option (List Char)
  | [] => none
  | c :: cs =>
    if 20 < (c :: cs).length ∧ c = '\r' ∧ nmatch ('\n' :: locPat) cs = true then
      some ((List.drop 10 cs).takeWhile (fun x => x != '\r'))
    else findLocation cs

/-- Pattern `<service>` of the description scanner. -/
def svcOpenPat : List Char := ("<service>").toList

/-- Pattern `</service>` of the description scanner. -/
def svcClosePat : List Char := ("</service>").toList

/-- The target service identifier `urn:upnp-org:serviceId:WANPPPConn1`. -/
def svcIdPat : List Char := ("urn:upnp-org:serviceId:WANPPPConn1").toList

/-- Pattern `<controlURL>` of the description scanner. -/
def ctlUrlPat : List Char := ("<controlURL>").toList

/-- Pattern `<NewExternalIPAddress>` of the response field extractor. -/
def extIpPat : List Char := ("<NewExternalIPAddress>").toList

/-- Local state of the description scan in `upnp_tcp_recv_cb`
(`int inservice = 0, get_this = -1;` plus the extracted control URL). -/
structure ScanSt where
  inservice : Int
  get_this : Int
  found : Option (List Char)
deriving DecidableEq

/-- The initial scanner state of each `upnp_tcp_recv_cb` invocation. -/
def scanSt0 : ScanSt := { inservice := 0, get_this := -1, found := none }

/-- One position of the description scan (upnp.c lines 643-667): at the
current suffix `s`, `<service>` increments the nesting counter, `</service>`
decrements it, the service identifier records the current depth in
`get_this`, and `<controlURL>` at the recorded depth extracts the tag content
(characters after the 12-character tag, up to the next `<` or the end) and
resets `get_this` to -1. -/
def descStep (st : ScanSt) (s : List Char) : ScanSt :=
  if ncasematch svcOpenPat s then { st with inservice := st.inservice + 1 }
  else if ncasematch svcClosePat s then { st with inservice := st.inservice - 1 }
  else if ncasematch svcIdPat s then { st with get_this := st.inservice }
  else if st.get_this = st.inservice then
    if ncasematch ctlUrlPat s then
      { inservice := st.inservice, get_this := -1,
        found := some (List.takeWhile (fun c => c != '<') (List.drop 12 s)) }
    else st
  else st

/-- The description scan: `descStep` at every successive position. -/
def descScan : ScanSt → List Char → ScanSt
  | st, [] => st
  | st, c :: cs =>
    match descStep st (c :: cs) with
    | ScanSt.mk a g f => descScan (ScanSt.mk a g f) cs

/-- Model of `upnp_tcp_recv_cb` (upnp.c lines 631-697) as a function from the
current state, the session and the received data to the updated session.
In `upnp_found_igd` the description scan may store a control URL; in
`upnp_query_extaddress` a body containing `<NewExternalIPAddress>` makes the
code parse `client->host` with `UTILS_StrToIP` into `external_address`
(success only).  Every other state leaves the session untouched. -/
def upnp_tcp_recv_cb (st : UpnpState) (client : UPnPClient)
    (pdata : List Char) : UPnPClient :=
  match st with
  | upnp_found_igd =>
    match (descScan scanSt0 pdata).found with
    | some u => { client with control_url := some u }
    | none => client
  | upnp_query_extaddress =>
    if containsCI extIpPat pdata then
      match strToIP client.host with
      | some e => { client with external_address := e }
      | none => client
    else client
  | _ => client

/-- Model of the state transition of `upnp_tcp_discon_cb` (upnp.c lines
538-564): the switch handles only `upnp_found_igd` (which becomes
`upnp_ready`); the default branch merely prints the state. -/
def upnp_tcp_discon_cb (st : UpnpState) : UpnpState :=
  if st = upnp_found_igd then upnp_ready else st

/-- The XML body of the AddPortMapping request (`upnp_query_add_xml`,
upnp.c lines 149-165), with the numbers substituted exactly as the
`os_sprintf` call at line 402 passes them: remote port, local port, then the
octets `ip4_addr4`, `ip4_addr3`, `ip4_addr2`, `ip4_addr1` of the local IP. -/
def upnp_query_add_xml (rport lport o4 o3 o2 o1 : Nat) : List Char :=
  ("<?xml version=\"1.0\"?>\r\n"
    ++ "<s:Envelope xmlns:s=\"http://schemas.xmlsoap.org/soap/envelope/\""
    ++ " s:encodingStyle=\"http://schemas.xmlsoap.org/soap/encoding/\">\r\n"
    ++ "<s:Body>\r\n"
    ++ "<u:AddPortMapping xmlns:u=\"urn:schemas-upnp-org:service:WANPPPConnection:1\">\r\n"
    ++ "<NewRemoteHost></NewRemoteHost>\r\n"
    ++ "<NewExternalPort>").toList
  ++ natDec rport
  ++ ("</NewExternalPort>\r\n"
    ++ "<NewProtocol>TCP</NewProtocol>\r\n"
    ++ "<NewInternalPort>").toList
  ++ natDec lport
  ++ ("</NewInternalPort>\r\n"
    ++ "<NewInternalClient>").toList
  ++ natDec o4 ++ (".").toList ++ natDec o3 ++ (".").toList
  ++ natDec o2 ++ (".").toList ++ natDec o1
  ++ ("</NewInternalClient>\r\n"
    ++ "<NewEnabled>1</NewEnabled>\r\n"
    ++ "<NewPortMappingDescription>libminiupnpc</NewPortMappingDescription>\r\n"
    ++ "<NewLeaseDuration>0</NewLeaseDuration>\r\n"
    ++ "</u:AddPortMapping>\r\n"
    ++ "</s:Body>\r\n"
    ++ "</s:Envelope>\r\n").toList

/-- The AddPortMapping request built from `upnp_query_add_tmpl` (upnp.c lines
138-147): the template substitutes the control URL, the host, the length of
the XML body, and appends the body after the blank line. -/
def upnp_query_add (control_url host xml : List Char) : List Char :=
  ("POST ").toList ++ control_url
  ++ (" HTTP/1.0\r\n" ++ "Host: ").toList ++ host
  ++ ("\r\n"
    ++ "User-Agent: esp-link\r\n"
    ++ "Content-Length: ").toList
  ++ natDec xml.length
  ++ ("\r\n"
    ++ "Content-Type: text/xml\r\n"
    ++ "SOAPAction: \"urn:schemas-upnp-org:service:WANPPPConnection:1#AddPortMapping\"\r\n"
    ++ "Connection: Close\r\n"
    ++ "Cache-Control: no-cache\r\n"
    ++ "Pragma: no-cache\r\n\r\n").toList
  ++ xml

/-- The XML body of the DeletePortMapping request (`upnp_query_remove_xml`,
upnp.c lines 227-239). -/
def upnp_query_remove_xml (rport : Nat) : List Char :=
  ("<?xml version=\"1.0\"?>\r\n"
    ++ "<s:Envelope xmlns:s=\"http://schemas.xmlsoap.org/soap/envelope/\"\r\n"
    ++ "    s:encodingStyle=\"http://schemas.xmlsoap.org/soap/encoding/\">\r\n"
    ++ "  <s:Body>\r\n"
    ++ "    <u:DeletePortMapping xmlns:u=\"urn:schemas-upnp-org:service:WANPPPConnection:1\">\r\n"
    ++ "    <NewRemoteHost>\r\n"
    ++ "    </NewRemoteHost>\r\n"
    ++ "    <NewExternalPort>").toList
  ++ natDec rport
  ++ ("</NewExternalPort>\r\n"
    ++ "    <NewProtocol>TCP</NewProtocol>\r\n"
    ++ "  </u:DeletePortMapping>\r\n"
    ++ "  </s:Body>\r\n"
    ++ "</s:Envelope>\r\n").toList

/-- The DeletePortMapping request built from `upnp_query_remove_tmpl`
(upnp.c lines 216-225).  The template ends after the `Pragma` header: it has
no conversion for the XML body and no terminating blank line, so the
`os_sprintf` call at line 446 substitutes the length of the XML but the XML
argument itself is dropped.  The `xml` parameter therefore only contributes
its length. -/
def upnp_query_remove (control_url host xml : List Char) : List Char :=
  ("POST ").toList ++ control_url
  ++ (" HTTP/1.0\r\n" ++ "Host: ").toList ++ host
  ++ ("\r\n"
    ++ "User-Agent: esp-link\r\n"
    ++ "Content-Length: ").toList
  ++ natDec xml.length
  ++ ("\r\n"
    ++ "Content-Type: text/xml\r\n"
    ++ "SOAPAction: \"urn:schemas-upnp-org:service:WANPPPConnection:1#DeletePortMapping\"\r\n"
    ++ "Connection: Close\r\n"
    ++ "Cache-Control: no-cache\r\n"
    ++ "Pragma: no-cache\r\n").toList

/-- The fixed XML body of the GetExternalIPAddress request
(`upnp_query_external_address_xml`, upnp.c lines 94-101). -/
def upnp_query_external_address_xml : List Char :=
  ("<?xml version=\"1.0\"?>\r\n"
    ++ "<s:Envelope xmlns:s=\"http://schemas.xmlsoap.org/soap/envelope/\""
    ++ " s:encodingStyle=\"http://schemas.xmlsoap.org/soap/encoding/\">\r\n"
    ++ "<s:Body>\r\n"
    ++ "<u:GetExternalIPAddress xmlns:u=\"urn:schemas-upnp-org:service:WANPPPConnection:1\">\r\n"
    ++ "</u:GetExternalIPAddress>\r\n"
    ++ "</s:Body>\r\n"
    ++ "</s:Envelope>\r\n").toList

/-- The GetExternalIPAddress request built from
`upnp_query_external_address` (upnp.c lines 82-92); note the space before
the colon in its Content-Length header, reproduced from the template. -/
def upnp_query_extaddr_req (control_url host : List Char) : List Char :=
  ("POST ").toList ++ control_url
  ++ (" HTTP/1.0\r\n" ++ "Host: ").toList ++ host
  ++ ("\r\n"
    ++ "User-Agent: esp-link\r\n"
    ++ "Content-Length : ").toList
  ++ natDec upnp_query_external_address_xml.length
  ++ ("\r\n"
    ++ "Content-Type: text/xml\r\n"
    ++ "SOAPAction: \"urn:schemas-upnp-org:service:WANPPPConnection:1#GetExternalIPAddress\"\r\n"
    ++ "Connection: Close\r\n"
    ++ "Cache-Control: no-cache\r\n"
    ++ "Pragma: no-cache\r\n"
    ++ "\r\n").toList
  ++ upnp_query_external_address_xml

/-- The part of an HTTP request after the first blank line (`\r\n\r\n`), or
`none` when the headers are never terminated. -/
def bodyAfterBlank : List Char → Option (List Char)
  | [] => none
  | c :: cs =>
    if nmatch ("\r\n\r\n").toList (c :: cs) then some (List.drop 3 cs)
    else bodyAfterBlank cs

/-- Outcome of one command handler invocation: the RPC reply (if any), the
resulting `upnp_state`, the resulting session pointer, and whether the
handler created/opened a connection. -/
structure CmdOut where
  reply : Option Int
  state : UpnpState
  client : Option UPnPClient
  opened : Bool
deriving DecidableEq

/-- Model of `cmdUPnPScan` (upnp.c lines 706-787).  In `upnp_ready` it
replies with the resolved gateway address (0 when there is no client) and
changes nothing.  In every other state it resets the session: it allocates a
fresh UDP connection, replaces the client with a zeroed one, resets the
retransmit counter, sends the multicast query, sets the state to
`upnp_multicasted` and replies 0 (allocation is modelled as succeeding). -/
def cmdUPnPScan (st : UpnpState) (cl : Option UPnPClient) : CmdOut :=
  if st = upnp_ready then
    { reply := some (match cl with
        | none => 0
        | some c => Int.ofNat c.remote_ip),
      state := st, client := cl, opened := false }
  else
    { reply := some 0, state := upnp_multicasted,
      client := some zeroClient, opened := true }

/-- Model of `cmdUPnPAddPort` (upnp.c lines 789-841).  `argc` is the command
argument count; `args` is `some (ip, local_port, remote_port)` when all three
`cmdPopArg` calls succeed and `none` when one fails.  A malformed command
returns without any reply; without a client, with an unresolved gateway
address, or outside `upnp_ready` the handler replies -1 and changes nothing;
otherwise it stores the mapping parameters, enters `upnp_adding_port`, starts
the query connection and replies 0. -/
def cmdUPnPAddPort (argc : Nat) (args : Option (Nat × Nat × Nat))
    (st : UpnpState) (cl : Option UPnPClient) : CmdOut :=
  if argc ≠ 3 then { reply := none, state := st, client := cl, opened := false }
  else
    match args with
    | none => { reply := none, state := st, client := cl, opened := false }
    | some (ip, lport, rport) =>
      match cl with
      | none => { reply := some (-1), state := st, client := cl, opened := false }
      | some c =>
        if c.remote_ip = 0 ∨ st ≠ upnp_ready then
          { reply := some (-1), state := st, client := some c, opened := false }
        else
          { reply := some 0, state := upnp_adding_port,
            client := some { c with ip := ip, port := lport, remote_port := rport },
            opened := true }

/-- Model of `cmdUPnPRemovePort` (upnp.c lines 843-881), analogous to
`cmdUPnPAddPort` with a single `remote_port` argument. -/
def cmdUPnPRemovePort (argc : Nat) (arg : Option Nat)
    (st : UpnpState) (cl : Option UPnPClient) : CmdOut :=
  if argc ≠ 1 then { reply := none, state := st, client := cl, opened := false }
  else
    match arg with
    | none => { reply := none, state := st, client := cl, opened := false }
    | some rport =>
      match cl with
      | none => { reply := some (-1), state := st, client := cl, opened := false }
      | some c =>
        if c.remote_ip = 0 ∨ st ≠ upnp_ready then
          { reply := some (-1), state := st, client := some c, opened := false }
        else
          { reply := some 0, state := upnp_removing_port,
            client := some { c with remote_port := rport },
            opened := true }

/-- Model of `cmdUPnPQueryExternalAddress` (upnp.c lines 940-975).  Without a
client or with an unresolved gateway address it replies -1.  In
`upnp_query_extaddress` it replies the current `external_address` (possibly
still 0) and moves back to `upnp_ready` only when that value is nonzero.  In
`upnp_ready` it enters `upnp_query_extaddress`, starts the query connection
and replies 0.  In any other state it replies -1. -/
def cmdUPnPQueryExternalAddress (st : UpnpState) (cl : Option UPnPClient) :
    CmdOut :=
  match cl with
  | none => { reply := some (-1), state := st, client := cl, opened := false }
  | some c =>
    if c.remote_ip = 0 then
      { reply := some (-1), state := st, client := cl, opened := false }
    else if st = upnp_query_extaddress then
      { reply := some (Int.ofNat c.external_address),
        state := if c.external_address ≠ 0 then upnp_ready else st,
        client := cl, opened := false }
    else if st = upnp_ready then
      { reply := some 0, state := upnp_query_extaddress,
        client := cl, opened := true }
    else
      { reply := some (-1), state := st, client := cl, opened := false }

/-- The retransmission bound `counter_max` (upnp.c line 36). -/
def counter_max : Nat := 4

/-- State of the SSDP discovery exchange: the protocol state, the retransmit
counter, and the number of times the multicast query has been passed to
`espconn_sent` so far. -/
structure SsdpSt where
  state : UpnpState
  counter : Nat
  tx : Nat
deriving DecidableEq

/-- State right after `cmdUPnPScan` accepted a scan: `counter = 0` (line
732), one transmission done (line 776), `upnp_state = upnp_multicasted`
(line 780). -/
def ssdpStart : SsdpSt := { state := upnp_multicasted, counter := 0, tx := 1 }

/-- Events relevant to the discovery exchange: a send-completion callback, a
datagram carrying a LOCATION header, and any other datagram. -/
inductive SsdpEvent where
  | sent
  | recvLocation
  | recvOther
deriving DecidableEq

/-- One discovery event.  `ssdp_sent_cb` (upnp.c lines 344-357) retransmits
and increments the counter while the state is `upnp_multicasted` and the
counter is below `counter_max`; `ssdp_recv_cb` advances the state to
`upnp_found_igd` on the first LOCATION-bearing datagram; other datagrams
change nothing. -/
def ssdpStep (s : SsdpSt) : SsdpEvent → SsdpSt
  | SsdpEvent.sent =>
    if s.state = upnp_multicasted ∧ s.counter < counter_max then
      { state := s.state, counter := s.counter + 1, tx := s.tx + 1 }
    else s
  | SsdpEvent.recvLocation =>
    if s.state = upnp_multicasted then
      { state := upnp_found_igd, counter := s.counter, tx := s.tx }
    else s
  | SsdpEvent.recvOther => s

/-- Run the discovery exchange over a sequence of events. -/
def ssdpRun (s : SsdpSt) (evs : List SsdpEvent) : SsdpSt :=
  evs.foldl ssdpStep s

/-- End-to-end pipeline for a scan exchange handled by a transport that
delivers the given discovery datagram and then the given description body in
one data event followed by a disconnect: `cmdUPnPScan` creates a zeroed
session, `ssdp_recv_cb` (upnp.c lines 311-341) extracts the LOCATION value
and analyzes it, `upnp_query_igd` (line 502) resolves `host` into
`remote_ip` when it parses as an address, `upnp_tcp_recv_cb` scans the
description, and `upnp_tcp_discon_cb` advances the state. -/
def scanPipeline (datagram desc : List Char) : UpnpState × UPnPClient :=
  match findLocation datagram with
  | none => (upnp_multicasted, zeroClient)
  | some loc =>
    let r := upnp_analyze_location loc
    let c1 := { zeroClient with location := r.location, control_port := r.control_port, path := r.path, host := r.host }
    let c2 := match strToIP c1.host with
      | some a => { c1 with remote_ip := a }
      | none => c1
    let c3 := upnp_tcp_recv_cb upnp_found_igd c2 desc
    (upnp_tcp_discon_cb upnp_found_igd, c3)

/-- Skeleton segment: one `<service>` block opening followed directly by its
`<controlURL>` opening tag. -/
def segA : List Char := ("<service><controlURL>").toList

/-- Skeleton segment: a `</controlURL>` closing tag followed by the
`</service>` block closing tag. -/
def segB : List Char := ("</controlURL></service>").toList

/-- Skeleton segment: a `<service>` block opening tag. -/
def segC : List Char := ("<service>").toList

/-- Skeleton segment: the target service identifier directly followed by a
`<controlURL>` opening tag. -/
def segD : List Char := svcIdPat ++ ctlUrlPat

/-- The characters of `<controlURL>` remaining after the scan position moved
one character past its `<`. -/
def segD2 : List Char := ("controlURL>").toList

/-- Tail of the two-service-block description body after the second control
URL value. -/
def c9t5 (post : List Char) : List Char := segB ++ post

/-- Tail of the description body after the second block content `w`. -/
def c9t4 (u2 post : List Char) : List Char := segD ++ (u2 ++ c9t5 post)

/-- Tail of the description body after the filler between the blocks. -/
def c9t3 (w u2 post : List Char) : List Char := segC ++ (w ++ c9t4 u2 post)

/-- Tail of the description body after the first control URL value. -/
def c9t2 (mid w u2 post : List Char) : List Char :=
  segB ++ (mid ++ c9t3 w u2 post)

/-- Tail of the description body after the leading filler. -/
def c9t1 (u1 mid w u2 post : List Char) : List Char :=
  segA ++ (u1 ++ c9t2 mid w u2 post)

/-- A description body with two `<service>` blocks: the first carries only a
control URL `u1`, the second carries the target service identifier and a
control URL `u2`; `pre`, `mid`, `w` and `post` are arbitrary fillers. -/
def c9body (pre u1 mid w u2 post : List Char) : List Char :=
  pre ++ c9t1 u1 mid w u2 post

/-- No scanner pattern fires at this position of the data. -/
def NoFire (s : List Char) : Prop :=
  ncasematch svcOpenPat s = false ∧ ncasematch svcClosePat s = false ∧
  ncasematch svcIdPat s = false ∧ ncasematch ctlUrlPat s = false

instance : DecidablePred NoFire := fun s => by
  unfold NoFire; infer_instance

/-- No scanner pattern fires at any position inside `xs` (the pattern may
look past `xs` into the fixed continuation `rest`). -/
def Quiet (xs rest : List Char) : Prop :=
  ∀ k, k < xs.length → NoFire (List.drop k xs ++ rest)

instance (xs rest : List Char) : Decidable (Quiet xs rest) := by
  unfold Quiet; infer_instance

/-- The scheme skipped by the fixed offset 7 in `upnp_analyze_location`. -/
def httpSch : List Char := ("http://").toList

/-- Sample discovery reply used by the end-to-end scenario of the spec. -/
def c5datagram : List Char :=
  ("HTTP/1.1 200 OK\r\nLOCATION: http://192.168.1.1:8000/desc.xml\r\nEXT:\r\nST: urn:schemas-upnp-org:device:InternetGatewayDevice:1\r\n\r\n").toList

/-- Sample description body naming the target service with control URL
`/ctl`. -/
def c5desc : List Char :=
  ("<service><serviceType>urn:schemas-upnp-org:service:WANPPPConnection:1</serviceType><serviceId>urn:upnp-org:serviceId:WANPPPConn1</serviceId><controlURL>/ctl</controlURL></service>").toList

/-- Sample GetExternalIPAddress response body whose tag content is the
address 83.134.116.129 (the example in upnp.c line 680). -/
def extRespBody : List Char :=
  ("<?xml version=\"1.0\"?>\r\n<s:Body>\r\n<m:GetExternalIPAddressResponse xmlns:m=\"urn:schemas-upnp-org:service:WANPPPConnection:1\">\r\n<NewExternalIPAddress>83.134.116.129</NewExternalIPAddress>\r\n</m:GetExternalIPAddressResponse>\r\n</s:Body>\r\n").toList

/-- A session that has completed discovery against the gateway 192.168.1.1
and carries a clean host string. -/
def c3client : UPnPClient :=
  { zeroClient with host := ("192.168.1.1").toList, control_url := some (("/ctl").toList), control_port := 8000, remote_ip := ipv4 192 168 1 1 }

/-- A ready session with a resolved gateway and no external address yet. -/
def clientA : UPnPClient :=
  { zeroClient with remote_ip := ipv4 192 168 1 1 }

/-- A session whose external address field has been populated. -/
def clientExt : UPnPClient :=
  { zeroClient with remote_ip := ipv4 192 168 1 1, external_address := ipv4 83 134 116 129 }

/-- A position where no scanner pattern fires leaves the scanner state
unchanged. -/
theorem descStep_nofire (st : ScanSt) (s : List Char) (h : NoFire s) :
    descStep st s = st := by
  simp [descStep, h.1, h.2.1, h.2.2.1, h.2.2.2]

/-- Scanning across a segment at whose positions no pattern fires leaves the
scanner state unchanged. -/
theorem descScan_quiet (xs rest : List Char) (h : Quiet xs rest)
    (st : ScanSt) : descScan st (xs ++ rest) = descScan st rest := by
  induction xs generalizing st with
  | nil => rfl
  | cons x xt ih =>
    have h0 : NoFire ((x :: xt) ++ rest) := h 0 (by simp)
    have hstep : descStep st ((x :: xt) ++ rest) = st := descStep_nofire st _ h0
    calc descScan st ((x :: xt) ++ rest)
        = descScan (descStep st ((x :: xt) ++ rest)) (xt ++ rest) := rfl
      _ = descScan st (xt ++ rest) := by rw [hstep]
      _ = descScan st rest := ih (fun k hk => h (k + 1) (by simpa using hk)) st

/-- Scanning the opening of a service block with its control URL tag
increments the nesting counter and changes nothing else. -/
theorem descScan_segA (r : List Char) :
    descScan scanSt0 (segA ++ r) = descScan ⟨1, -1, none⟩ r := rfl

/-- Scanning the closing of a control URL tag and its service block
decrements the nesting counter back to 0. -/
theorem descScan_segB (f : Option (List Char)) (r : List Char) :
    descScan ⟨1, -1, f⟩ (segB ++ r) = descScan ⟨0, -1, f⟩ r := rfl

/-- Scanning a service block opening tag increments the nesting counter. -/
theorem descScan_segC (f : Option (List Char)) (r : List Char) :
    descScan ⟨0, -1, f⟩ (segC ++ r) = descScan ⟨1, -1, f⟩ r := rfl

/-- Scanning the service identifier followed by a control URL opening tag
performs the extraction: the content up to the next `<` is stored. -/
theorem descScan_segD (f : Option (List Char)) (u2 r : List Char) :
    descScan ⟨1, -1, f⟩ (segD ++ (u2 ++ r))
      = descScan ⟨1, -1, some (List.takeWhile (fun c => c != '<') (u2 ++ r))⟩
          (segD2 ++ (u2 ++ r)) := rfl

/-- Scanning the remainder of a control URL opening tag changes nothing once
the extraction has already happened. -/
theorem descScan_segD2 (f : Option (List Char)) (r : List Char) :
    descScan ⟨1, -1, f⟩ (segD2 ++ r) = descScan ⟨1, -1, f⟩ r := rfl

/-- A `takeWhile` over a satisfying run followed by a failing element
returns exactly the run. -/
theorem takeWhile_append_stop (q : Char → Bool) (xs : List Char) (y : Char)
    (ys : List Char) (h1 : ∀ c ∈ xs, q c = true) (h2 : q y = false) :
    List.takeWhile q (xs ++ y :: ys) = xs := by
  induction xs with
  | nil => simp [List.takeWhile_cons, h2]
  | cons x xt ih =>
    have hx : q x = true := h1 x (by simp)
    simp [List.takeWhile_cons, hx, ih (fun c hc => h1 c (by simp [hc]))]

/-- `breakAtChar` splits exactly at the first occurrence of the target. -/
theorem breakAtChar_app (ch : Char) (xs ys : List Char)
    (h : ∀ c ∈ xs, c ≠ ch) :
    breakAtChar ch (xs ++ ch :: ys) = (xs, ch :: ys) := by
  induction xs with
  | nil => simp [breakAtChar]
  | cons x xt ih =>
    have hx : x ≠ ch := h x (by simp)
    simp [breakAtChar, hx, ih (fun c hc => h c (by simp [hc]))]

/-- `breakAtChar` over a list free of the target returns the whole list and
an empty suffix. -/
theorem breakAtChar_none (ch : Char) (xs : List Char)
    (h : ∀ c ∈ xs, c ≠ ch) :
    breakAtChar ch xs = (xs, []) := by
  induction xs with
  | nil => simp [breakAtChar]
  | cons x xt ih =>
    have hx : x ≠ ch := h x (by simp)
    simp [breakAtChar, hx, ih (fun c hc => h c (by simp [hc]))]

/-- Basic exclusions for decimal digit characters. -/
theorem isDigitC_facts (c : Char) (h : isDigitC c = true) :
    c ≠ '/' ∧ c ≠ '-' ∧ c ≠ '+' ∧ isSpaceC c = false := by
  refine ⟨?_, ?_, ?_, ?_⟩
  · rintro rfl; exact absurd h (by decide)
  · rintro rfl; exact absurd h (by decide)
  · rintro rfl; exact absurd h (by decide)
  · have h1 : (c == ' ') = false := by
      rw [beq_eq_false_iff_ne]; rintro rfl; exact absurd h (by decide)
    have h2 : (c == '\t') = false := by
      rw [beq_eq_false_iff_ne]; rintro rfl; exact absurd h (by decide)
    have h3 : (c == '\n') = false := by
      rw [beq_eq_false_iff_ne]; rintro rfl; exact absurd h (by decide)
    have h4 : (c == '\r') = false := by
      rw [beq_eq_false_iff_ne]; rintro rfl; exact absurd h (by decide)
    simp [isSpaceC, h1, h2, h3, h4]

/-- `atoi` on a nonempty digit run followed by a non-digit returns the value
of the run. -/
theorem atoiInt_digits (ds : List Char) (y : Char) (ys : List Char)
    (h0 : ds ≠ []) (h1 : ∀ c ∈ ds, isDigitC c = true)
    (hy : isDigitC y = false) :
    atoiInt (ds ++ y :: ys) = Int.ofNat (valDigits ds) := by
  match ds, h0 with
  | d :: dt, _ =>
    have hd := h1 d (by simp)
    have hfacts := isDigitC_facts d hd
    have hds : List.dropWhile (fun c => isSpaceC c) ((d :: dt) ++ y :: ys)
        = d :: (dt ++ y :: ys) := by
      simp [List.dropWhile_cons, hfacts.2.2.2]
    have htw : List.takeWhile (fun x => isDigitC x) (d :: (dt ++ y :: ys))
        = d :: dt := by
      rw [← List.cons_append]
      exact takeWhile_append_stop _ _ _ _ (fun c hc => h1 c hc) hy
    simp only [atoiInt, hds]
    simp [hfacts.2.1, hfacts.2.2.1, htw]

/-- Truncating a nonnegative value to `uint16_t` is reduction mod 2 ^ 16. -/
theorem u16_ofNat (n : Nat) : u16 (Int.ofNat n) = n % 65536 := rfl

/-- Dropping the 7 scheme characters from a well-formed location. -/
theorem drop7_http (X : List Char) : List.drop 7 (httpSch ++ X) = X := rfl

/-- C1: a disconnect event while the session is in `upnp_adding_port` or
`upnp_removing_port` does NOT return the state machine to `upnp_ready`: the
switch in `upnp_tcp_discon_cb` handles only `upnp_found_igd`, so both
operation states persist across the disconnect (contradicting the claim,
which the code itself announces with the comment about kicking the state
machine into the next state). -/
theorem claim1_discon_leaves_op_states :
    upnp_tcp_discon_cb upnp_adding_port = upnp_adding_port
    ∧ upnp_tcp_discon_cb upnp_removing_port = upnp_removing_port
    ∧ upnp_adding_port ≠ upnp_ready
    ∧ upnp_removing_port ≠ upnp_ready
    ∧ upnp_tcp_discon_cb upnp_found_igd = upnp_ready := by decide

/-- C2: evaluated at a concrete DeletePortMapping request (remote port 9876,
control URL `/ctl`, host `192.168.1.1:8000`), the generated request declares
`Content-Length: 429` (the length of the substituted XML) yet contains no
blank line and no XML body at all, because `upnp_query_remove_tmpl` lacks the
body conversion; the AddPortMapping and GetExternalIPAddress requests, built
the same way, do carry their bodies with the matching length header. -/
theorem claim2_remove_request_lacks_body :
    bodyAfterBlank (upnp_query_remove (("/ctl").toList)
        (("192.168.1.1:8000").toList) (upnp_query_remove_xml 9876)) = none
    ∧ (upnp_query_remove_xml 9876).length = 429
    ∧ containsSub (("Content-Length: 429").toList)
        (upnp_query_remove (("/ctl").toList) (("192.168.1.1:8000").toList)
          (upnp_query_remove_xml 9876)) = true
    ∧ containsSub (upnp_query_remove_xml 9876)
        (upnp_query_remove (("/ctl").toList) (("192.168.1.1:8000").toList)
          (upnp_query_remove_xml 9876)) = false
    ∧ bodyAfterBlank (upnp_query_add (("/ctl").toList)
        (("192.168.1.1:8000").toList) (upnp_query_add_xml 9876 80 176 1 168 192))
        = some (upnp_query_add_xml 9876 80 176 1 168 192)
    ∧ containsSub (("Content-Length: ").toList
        ++ natDec (upnp_query_add_xml 9876 80 176 1 168 192).length)
        (upnp_query_add (("/ctl").toList) (("192.168.1.1:8000").toList)
          (upnp_query_add_xml 9876 80 176 1 168 192)) = true
    ∧ bodyAfterBlank (upnp_query_extaddr_req (("/ctl").toList)
        (("192.168.1.1:8000").toList)) = some upnp_query_external_address_xml
    ∧ containsSub (("Content-Length : ").toList
        ++ natDec upnp_query_external_address_xml.length)
        (upnp_query_extaddr_req (("/ctl").toList)
          (("192.168.1.1:8000").toList)) = true := by decide

/-- C3: a response received in `upnp_query_extaddress` whose body contains
the tag `<NewExternalIPAddress>83.134.116.129<...>` makes the code store the
parse of `client->host` (here 192.168.1.1) into `external_address`, not the
address following the tag: the call at upnp.c line 685 passes `client->host`
to `UTILS_StrToIP` instead of the tag content. -/
theorem claim3_extaddr_stores_host_parse :
    (upnp_tcp_recv_cb upnp_query_extaddress c3client extRespBody).external_address
        = ipv4 192 168 1 1
    ∧ ipv4 192 168 1 1 ≠ ipv4 83 134 116 129
    ∧ containsCI extIpPat extRespBody = true := by decide

/-- C4 counterexample: on `http://192.168.1.1:8000/desc.xml` the produced
host is `192.168.1.1:8000`, not the claimed substring up to the first colon;
on `http://192.168.1.1/desc.xml` (no port) the produced path is empty and
the host swallows the path, against the claimed outputs. -/
theorem claim4_counterexample :
    (upnp_analyze_location (("http://192.168.1.1:8000/desc.xml").toList)).host
        = ("192.168.1.1:8000").toList
    ∧ ("192.168.1.1:8000").toList ≠ ("192.168.1.1").toList
    ∧ (upnp_analyze_location (("http://192.168.1.1/desc.xml").toList)).path = []
    ∧ (upnp_analyze_location (("http://192.168.1.1/desc.xml").toList)).host
        = ("192.168.1.1/desc.xml").toList
    ∧ (upnp_analyze_location (("http://192.168.1.1/desc.xml").toList)).control_port
        = 80 := by decide

/-- C4 amended: for a location `http://h:port/path` whose host part contains
no colon and no slash and whose port is a nonempty digit run, the analyzer
yields the port value (mod 2 ^ 16) and the path from the first slash, but
the host is the whole text between the scheme and that slash, so it retains
the `:port` suffix; rebuilding `http://` ++ host ++ path (without inserting
the port again) re-derives the original location.  When the location
contains no colon at all, the port defaults to 80 but no path is ever found:
the path is empty and the host absorbs the entire remainder, and the
re-derivation holds trivially. -/
theorem claim4_amended (h ds p r : List Char)
    (hh : ∀ c ∈ h, c ≠ ':' ∧ c ≠ '/')
    (hds0 : ds ≠ []) (hds : ∀ c ∈ ds, isDigitC c = true)
    (hr : ∀ c ∈ r, c ≠ ':') :
    (upnp_analyze_location (httpSch ++ (h ++ ':' :: (ds ++ '/' :: p)))
        = ⟨httpSch ++ (h ++ ':' :: (ds ++ '/' :: p)), valDigits ds % 65536,
            '/' :: p, h ++ ':' :: ds⟩
      ∧ httpSch ++ ((h ++ ':' :: ds) ++ '/' :: p)
          = httpSch ++ (h ++ ':' :: (ds ++ '/' :: p)))
    ∧ (upnp_analyze_location (httpSch ++ r)
        = ⟨httpSch ++ r, 80, [], r⟩
      ∧ httpSch ++ (r ++ ([] : List Char)) = httpSch ++ r) := by
  refine ⟨⟨?_, by simp⟩, ⟨?_, by simp⟩⟩
  · have e2 : breakAtChar ':' (h ++ ':' :: (ds ++ '/' :: p))
        = (h, ':' :: (ds ++ '/' :: p)) :=
      breakAtChar_app ':' h _ (fun c hc => (hh c hc).1)
    have e3 : breakAtChar '/' (ds ++ '/' :: p) = (ds, '/' :: p) :=
      breakAtChar_app '/' ds p (fun c hc => (isDigitC_facts c (hds c hc)).1)
    have e4 : breakAtChar '/' (':' :: (ds ++ '/' :: p))
        = (':' :: ds, '/' :: p) := by
      simp [breakAtChar, e3]
    have e5 : atoiInt (ds ++ '/' :: p) = Int.ofNat (valDigits ds) :=
      atoiInt_digits ds '/' p hds0 hds (by decide)
    unfold upnp_analyze_location
    rw [drop7_http, e2]
    simp [e4, e5]
    exact u16_ofNat _
  · have e2 : breakAtChar ':' r = (r, []) :=
      breakAtChar_none ':' r hr
    unfold upnp_analyze_location
    rw [drop7_http, e2]
    simp [breakAtChar]

/-- C4 witness: the amended statement applied to
`http://192.168.1.1:8000/desc.xml`. -/
theorem claim4_amended_witness :
    (∀ c ∈ ("192.168.1.1").toList, c ≠ ':' ∧ c ≠ '/')
    ∧ upnp_analyze_location (("http://192.168.1.1:8000/desc.xml").toList)
        = ⟨("http://192.168.1.1:8000/desc.xml").toList, 8000,
            ("/desc.xml").toList, ("192.168.1.1:8000").toList⟩ := by
  constructor
  · decide
  · exact (claim4_amended (("192.168.1.1").toList) (("8000").toList)
      (("desc.xml").toList) (("192.168.1.1").toList)
      (by decide) (by decide) (by decide) (by decide)).1.1

/-- C5 counterexample: in the end-to-end scenario of the claim (discovery
reply with `LOCATION: http://192.168.1.1:8000/desc.xml`, description body
naming the target service with control URL `/ctl`, then disconnect), the
resulting host is `/192.168.1.1:8000`, not the claimed `192.168.1.1`: the
extracted location value keeps the space after `LOCATION:`, the fixed
7-character scheme skip then lands one character early, and the host keeps
everything up to the first slash after the port colon. -/
theorem claim5_counterexample :
    (scanPipeline c5datagram c5desc).2.host = ("/192.168.1.1:8000").toList
    ∧ ("/192.168.1.1:8000").toList ≠ ("192.168.1.1").toList := by decide

/-- C5 amended: the same end-to-end scenario does reach `state == Ready`
with `controlPort == 8000` and `controlUrl == /ctl`, but the stored host is
`/192.168.1.1:8000` (and consequently it does not parse as an address, so
the gateway address stays unresolved). -/
theorem claim5_amended :
    (scanPipeline c5datagram c5desc).1 = upnp_ready
    ∧ (scanPipeline c5datagram c5desc).2.control_port = 8000
    ∧ (scanPipeline c5datagram c5desc).2.control_url = some (("/ctl").toList)
    ∧ (scanPipeline c5datagram c5desc).2.host = ("/192.168.1.1:8000").toList
    ∧ (scanPipeline c5datagram c5desc).2.remote_ip = 0 := by decide

/-- C6 counterexample: four send-completion events after the initial scan
transmission drive the total number of transmissions to 5, so the query is
transmitted more than 4 times. -/
theorem claim6_counterexample :
    (ssdpRun ssdpStart [SsdpEvent.sent, SsdpEvent.sent, SsdpEvent.sent,
        SsdpEvent.sent]).tx = 5
    ∧ ¬ (5 : Nat) ≤ 4 := by decide

/-- C6 amended: in every execution starting from a scan request, the
multicast query is transmitted at most 5 times in total: the initial send of
`cmdUPnPScan` plus at most `counter_max = 4` retransmissions from
`ssdp_sent_cb`, whatever the sequence of send-completion and receive
events. -/
theorem claim6_amended (evs : List SsdpEvent) :
    (ssdpRun ssdpStart evs).tx ≤ 5 := by
  have key : ∀ (l : List SsdpEvent) (s : SsdpSt),
      s.tx = s.counter + 1 → s.counter ≤ counter_max →
      (ssdpRun s l).tx = (ssdpRun s l).counter + 1
        ∧ (ssdpRun s l).counter ≤ counter_max := by
    intro l
    induction l with
    | nil => intro s h1 h2; exact ⟨h1, h2⟩
    | cons e rest ih =>
      intro s h1 h2
      have hstep : (ssdpStep s e).tx = (ssdpStep s e).counter + 1
          ∧ (ssdpStep s e).counter ≤ counter_max := by
        cases e with
        | sent =>
          by_cases hc : s.state = upnp_multicasted ∧ s.counter < counter_max
          · simp [ssdpStep, hc, h1]
            omega
          · simp [ssdpStep, hc, h1, h2]
        | recvLocation =>
          by_cases hc : s.state = upnp_multicasted
          · simp [ssdpStep, hc, h1, h2]
          · simp [ssdpStep, hc, h1, h2]
        | recvOther => exact ⟨h1, h2⟩
      exact ih (ssdpStep s e) hstep.1 hstep.2
  have hs := key evs ssdpStart (by decide) (by decide)
  have hcm : counter_max = 4 := rfl
  omega

/-- C7 counterexample: a scan issued in `upnp_adding_port` (outside
Idle/Ready) is not rejected: it opens a connection, moves the state to
`upnp_multicasted` and replies 0 after abandoning the session; a query
issued in `upnp_query_extaddress` with the address already present replies
the address, not -1; and a malformed AddPort in a busy state replies nothing
at all rather than -1. -/
theorem claim7_counterexample :
    (cmdUPnPScan upnp_adding_port (some clientA)).opened = true
    ∧ (cmdUPnPScan upnp_adding_port (some clientA)).state = upnp_multicasted
    ∧ upnp_multicasted ≠ upnp_adding_port
    ∧ (cmdUPnPScan upnp_adding_port (some clientA)).reply = some 0
    ∧ (cmdUPnPQueryExternalAddress upnp_query_extaddress (some clientExt)).reply
        = some (Int.ofNat (ipv4 83 134 116 129))
    ∧ some (Int.ofNat (ipv4 83 134 116 129)) ≠ some (-1 : Int)
    ∧ (cmdUPnPAddPort 2 none upnp_multicasted (some clientA)).reply = none
    ∧ (none : Option Int) ≠ some (-1) := by decide

/-- C7 amended: a scan issued outside `upnp_ready` is accepted, not
rejected: it abandons the session, restarts discovery on a fresh connection
and replies 0.  Well-formed AddPort and RemovePort requests issued outside
`upnp_ready` are rejected with -1, without state change and without opening
a connection; a QueryExternalAddress issued outside both `upnp_ready` and
the polling state `upnp_query_extaddress` is likewise rejected with -1 and
changes nothing. -/
theorem claim7_amended (st : UpnpState) (cl : Option UPnPClient)
    (args : Nat × Nat × Nat) (rp : Nat) (hst : st ≠ upnp_ready) :
    cmdUPnPScan st cl = ⟨some 0, upnp_multicasted, some zeroClient, true⟩
    ∧ cmdUPnPAddPort 3 (some args) st cl = ⟨some (-1), st, cl, false⟩
    ∧ cmdUPnPRemovePort 1 (some rp) st cl = ⟨some (-1), st, cl, false⟩
    ∧ (st ≠ upnp_query_extaddress →
        cmdUPnPQueryExternalAddress st cl = ⟨some (-1), st, cl, false⟩) := by
  refine ⟨?_, ?_, ?_, ?_⟩
  · simp [cmdUPnPScan, hst]
  · obtain ⟨ip, lp, rp2⟩ := args
    cases cl with
    | none => simp [cmdUPnPAddPort]
    | some c => simp [cmdUPnPAddPort, hst]
  · cases cl with
    | none => simp [cmdUPnPRemovePort]
    | some c => simp [cmdUPnPRemovePort, hst]
  · intro hq
    cases cl with
    | none => simp [cmdUPnPQueryExternalAddress]
    | some c =>
      by_cases h0 : c.remote_ip = 0
      · simp [cmdUPnPQueryExternalAddress, h0]
      · simp [cmdUPnPQueryExternalAddress, h0, hq, hst]

/-- C7 witness: the amended statement applied in `upnp_multicasted`. -/
theorem claim7_amended_witness :
    upnp_multicasted ≠ upnp_ready
    ∧ cmdUPnPScan upnp_multicasted (some clientA)
        = ⟨some 0, upnp_multicasted, some zeroClient, true⟩
    ∧ cmdUPnPAddPort 3 (some (1, 2, 3)) upnp_multicasted (some clientA)
        = ⟨some (-1), upnp_multicasted, some clientA, false⟩
    ∧ cmdUPnPRemovePort 1 (some 7) upnp_multicasted (some clientA)
        = ⟨some (-1), upnp_multicasted, some clientA, false⟩
    ∧ cmdUPnPQueryExternalAddress upnp_multicasted (some clientA)
        = ⟨some (-1), upnp_multicasted, some clientA, false⟩ := by
  have hm := claim7_amended upnp_multicasted (some clientA) (1, 2, 3) 7
    (by decide)
  exact ⟨by decide, hm.1, hm.2.1, hm.2.2.1, hm.2.2.2 (by decide)⟩

/-- C8: while a query is outstanding (`upnp_query_extaddress`) and the
external address has not arrived, a further poll replies 0, keeps the state
and opens no second connection; once the field is populated, the next poll
replies the address and moves the state back to `upnp_ready`. -/
theorem claim8_query_poll (c : UPnPClient) (hrip : c.remote_ip ≠ 0) :
    (c.external_address = 0 →
      cmdUPnPQueryExternalAddress upnp_query_extaddress (some c)
        = ⟨some 0, upnp_query_extaddress, some c, false⟩)
    ∧ (c.external_address ≠ 0 →
      cmdUPnPQueryExternalAddress upnp_query_extaddress (some c)
        = ⟨some (Int.ofNat c.external_address), upnp_ready, some c, false⟩) := by
  constructor
  · intro h0; simp [cmdUPnPQueryExternalAddress, hrip, h0]
  · intro h0; simp [cmdUPnPQueryExternalAddress, hrip, h0]

/-- C8 witness: the poll statement applied to a session without and with a
populated external address. -/
theorem claim8_query_poll_witness :
    clientA.remote_ip ≠ 0
    ∧ cmdUPnPQueryExternalAddress upnp_query_extaddress (some clientA)
        = ⟨some 0, upnp_query_extaddress, some clientA, false⟩
    ∧ clientExt.external_address ≠ 0
    ∧ cmdUPnPQueryExternalAddress upnp_query_extaddress (some clientExt)
        = ⟨some (Int.ofNat clientExt.external_address), upnp_ready,
            some clientExt, false⟩ :=
  ⟨by decide, (claim8_query_poll clientA (by decide)).1 (by decide),
   by decide, (claim8_query_poll clientExt (by decide)).2 (by decide)⟩

/-- C10: an AddPort whose argument count differs from 3 or whose arguments
cannot be read, and a RemovePort whose argument count differs from 1 or
whose argument cannot be read, return without sending any reply, without
changing the state and without opening a connection. -/
theorem claim10_malformed_no_reply (argcA argcR : Nat)
    (args : Option (Nat × Nat × Nat)) (arg : Option Nat)
    (st : UpnpState) (cl : Option UPnPClient)
    (hA : argcA ≠ 3) (hR : argcR ≠ 1) :
    cmdUPnPAddPort argcA args st cl = ⟨none, st, cl, false⟩
    ∧ cmdUPnPAddPort 3 none st cl = ⟨none, st, cl, false⟩
    ∧ cmdUPnPRemovePort argcR arg st cl = ⟨none, st, cl, false⟩
    ∧ cmdUPnPRemovePort 1 none st cl = ⟨none, st, cl, false⟩ := by
  refine ⟨?_, ?_, ?_, ?_⟩
  · simp [cmdUPnPAddPort, hA]
  · simp [cmdUPnPAddPort]
  · simp [cmdUPnPRemovePort, hR]
  · simp [cmdUPnPRemovePort]

/-- C10 witness: malformed AddPort and RemovePort commands in the ready
state. -/
theorem claim10_malformed_no_reply_witness :
    (2 : Nat) ≠ 3 ∧ (0 : Nat) ≠ 1
    ∧ cmdUPnPAddPort 2 (some (1, 2, 3)) upnp_ready (some clientA)
        = ⟨none, upnp_ready, some clientA, false⟩
    ∧ cmdUPnPRemovePort 0 (some 7) upnp_ready (some clientA)
        = ⟨none, upnp_ready, some clientA, false⟩ := by
  have hm := claim10_malformed_no_reply 2 0 (some (1, 2, 3)) (some 7)
    upnp_ready (some clientA) (by decide) (by decide)
  exact ⟨by decide, by decide, hm.1, hm.2.2.1⟩

/-- C9: for every description body built of two `<service>` blocks where
only the second contains the target service identifier — with arbitrary
quiet fillers `pre`, `mid`, `w`, `post` and arbitrary control URL contents
`u1` (first block) and `u2` (second block, no `<` inside) at whose positions
no scanner pattern fires — the scan delivered in a single data event stores
`u2`, the control URL of the identified block, and ignores the `<controlURL>`
of the first block: the depth check `get_this == inservice` only accepts a
control URL at the depth recorded when the identifier was seen. -/
theorem claim9_extractor (pre u1 mid w u2 post : List Char)
    (client : UPnPClient)
    (hpre : Quiet pre (c9t1 u1 mid w u2 post))
    (hu1 : Quiet u1 (c9t2 mid w u2 post))
    (hmid : Quiet mid (c9t3 w u2 post))
    (hw : Quiet w (c9t4 u2 post))
    (hu2 : Quiet u2 (c9t5 post))
    (hu2lt : ∀ c ∈ u2, (c != '<') = true)
    (hpost : Quiet post []) :
    (upnp_tcp_recv_cb upnp_found_igd client
        (c9body pre u1 mid w u2 post)).control_url = some u2 := by
  have hT : List.takeWhile (fun c => c != '<') (u2 ++ c9t5 post) = u2 := by
    have hE : c9t5 post = '<' :: (("/controlURL></service>").toList ++ post) := rfl
    rw [hE]
    exact takeWhile_append_stop _ u2 '<' _ hu2lt (by decide)
  have hscan : descScan scanSt0 (c9body pre u1 mid w u2 post)
      = ⟨0, -1, some u2⟩ := by
    calc descScan scanSt0 (c9body pre u1 mid w u2 post)
        = descScan scanSt0 (c9t1 u1 mid w u2 post) :=
          descScan_quiet pre _ hpre scanSt0
      _ = descScan ⟨1, -1, none⟩ (u1 ++ c9t2 mid w u2 post) := descScan_segA _
      _ = descScan ⟨1, -1, none⟩ (c9t2 mid w u2 post) :=
          descScan_quiet u1 _ hu1 _
      _ = descScan ⟨0, -1, none⟩ (mid ++ c9t3 w u2 post) := descScan_segB none _
      _ = descScan ⟨0, -1, none⟩ (c9t3 w u2 post) := descScan_quiet mid _ hmid _
      _ = descScan ⟨1, -1, none⟩ (w ++ c9t4 u2 post) := descScan_segC none _
      _ = descScan ⟨1, -1, none⟩ (c9t4 u2 post) := descScan_quiet w _ hw _
      _ = descScan ⟨1, -1, some (List.takeWhile (fun c => c != '<')
            (u2 ++ c9t5 post))⟩ (segD2 ++ (u2 ++ c9t5 post)) :=
          descScan_segD none u2 _
      _ = descScan ⟨1, -1, some u2⟩ (segD2 ++ (u2 ++ c9t5 post)) := by rw [hT]
      _ = descScan ⟨1, -1, some u2⟩ (u2 ++ c9t5 post) := descScan_segD2 _ _
      _ = descScan ⟨1, -1, some u2⟩ (c9t5 post) := descScan_quiet u2 _ hu2 _
      _ = descScan ⟨0, -1, some u2⟩ post := descScan_segB (some u2) post
      _ = descScan ⟨0, -1, some u2⟩ (post ++ []) := by rw [List.append_nil]
      _ = descScan ⟨0, -1, some u2⟩ [] := descScan_quiet post [] hpost _
      _ = ⟨0, -1, some u2⟩ := rfl
  simp [upnp_tcp_recv_cb, hscan]

/-- C9 witness: a body whose first block carries the control URL `/wrong`
and whose second, identified block carries `/ctl`; the extractor stores
`/ctl`. -/
theorem claim9_extractor_witness :
    Quiet (("/wrong").toList) (c9t2 [] [] (("/ctl").toList) [])
    ∧ (∀ c ∈ ("/ctl").toList, (c != '<') = true)
    ∧ (upnp_tcp_recv_cb upnp_found_igd zeroClient
        (c9body [] (("/wrong").toList) [] [] (("/ctl").toList) [])).control_url
      = some (("/ctl").toList) := by
  refine ⟨by decide, by decide, ?_⟩
  exact claim9_extractor [] (("/wrong").toList) [] [] (("/ctl").toList) []
    zeroClient (by decide) (by decide) (by decide) (by decide) (by decide)
    (by decide) (by decide)
